import Mathlib

/-!
Shallow embedding of `bevy_mod_ui_independent_text` (src/src/lib.rs) and
verification of its specification claims.

The repository is a thin adapter over the Bevy engine: a layout system
(`update_ui_independent_text_layout`) and an extraction system
(`extract_text_sprite`).  Host-engine services (the text pipeline's
`queue_text`, asset stores, cameras) are modelled as explicit parameters;
the adapter's own control and data flow is translated statement by
statement from the source.

Numeric convention: the source's `f32` arithmetic is modelled over `ℚ`.
Every claim below is about data flow, control flow and exact unit
conversions (multiply / divide / round), none about float rounding error,
so exact rationals are a faithful carrier.  `round` is modelled as Rust's
`f32::round` (ties away from zero), `as u32` as the saturating truncating
cast.
-/

set_option linter.unusedVariables false
set_option linter.unreachableTactic false
set_option linter.unusedTactic false

/-- 2-D vector over ℚ, standing for glam's `Vec2`. -/
structure Vec2 where
  x : ℚ
  y : ℚ
deriving DecidableEq, Repr

/-- 3-D vector over ℚ, standing for glam's `Vec3`/`Vec3A`. -/
structure Vec3 where
  x : ℚ
  y : ℚ
  z : ℚ
deriving DecidableEq, Repr

namespace Vec3

def add (a b : Vec3) : Vec3 := ⟨a.x + b.x, a.y + b.y, a.z + b.z⟩

def smul (c : ℚ) (a : Vec3) : Vec3 := ⟨c * a.x, c * a.y, c * a.z⟩

end Vec3

/-- `Vec2::extend(z)`. -/
def Vec2.extend (v : Vec2) (z : ℚ) : Vec3 := ⟨v.x, v.y, z⟩

/-- Floor of a rational, written out computably (`⌊q⌋ = q.num / q.den`
with `Int` division, which rounds toward negative infinity on a reduced
fraction's nonneg denominator). -/
def ratFloor (q : ℚ) : ℤ := q.num / q.den

/-- Rust `f32::round`: round half away from zero. -/
def f32round (q : ℚ) : ℚ :=
  if q < 0 then -((ratFloor (-q + 1 / 2) : ℤ) : ℚ) else ((ratFloor (q + 1 / 2) : ℤ) : ℚ)

/-- Componentwise `Vec3::round`. -/
def Vec3.roundv (v : Vec3) : Vec3 := ⟨f32round v.x, f32round v.y, f32round v.z⟩

/-- Rust `as u32` on an `f32`: truncate toward zero, saturating at the ends. -/
def u32cast (q : ℚ) : ℕ :=
  if q < 0 then 0 else min (2 ^ 32 - 1) (ratFloor q).toNat

/-- `f32::MAX` as an exact rational: `(2 - 2⁻²³) · 2¹²⁷`. -/
def f32MAX : ℚ := 2 ^ 128 - 2 ^ 104

/-- 3×3 matrix stored by columns, standing for glam's `Mat3A`. -/
structure Mat3 where
  xAxis : Vec3
  yAxis : Vec3
  zAxis : Vec3
deriving DecidableEq, Repr

namespace Mat3

def identity : Mat3 :=
  ⟨⟨1, 0, 0⟩, ⟨0, 1, 0⟩, ⟨0, 0, 1⟩⟩

def mulVec (m : Mat3) (v : Vec3) : Vec3 :=
  (Vec3.smul v.x m.xAxis).add ((Vec3.smul v.y m.yAxis).add (Vec3.smul v.z m.zAxis))

def mul (a b : Mat3) : Mat3 :=
  ⟨a.mulVec b.xAxis, a.mulVec b.yAxis, a.mulVec b.zAxis⟩

def diagonal (s : Vec3) : Mat3 :=
  ⟨⟨s.x, 0, 0⟩, ⟨0, s.y, 0⟩, ⟨0, 0, s.z⟩⟩

end Mat3

/-- Affine 3-D transform (`Affine3A`; also the affine 4×4 matrices the
source builds with `compute_matrix`, `Mat4::from_scale`,
`Mat4::from_translation` — every `Mat4` in `extract_text_sprite` is
affine, so one carrier represents both). -/
structure Affine3 where
  matrix3 : Mat3
  translation : Vec3
deriving DecidableEq, Repr

namespace Affine3

def mul (a b : Affine3) : Affine3 :=
  ⟨a.matrix3.mul b.matrix3, (a.matrix3.mulVec b.translation).add a.translation⟩

def fromTranslation (t : Vec3) : Affine3 := ⟨Mat3.identity, t⟩

def fromScale (s : Vec3) : Affine3 := ⟨Mat3.diagonal s, ⟨0, 0, 0⟩⟩

end Affine3

/-! ## Text data model -/

/-- Colors are carried, never computed with: the `Color` → `LinearRgba`
conversion is host code.  An opaque identifier is a faithful carrier for
every claim. -/
abbrev ColorV := ℕ

/-- `LinearRgba::from(Color::WHITE)`, the loop's initial color. -/
def colorWHITE : ColorV := 0

/-- `TextStyle`: font handle, size and color of one section. -/
structure TextStyle where
  font : ℕ
  font_size : ℚ
  color : ColorV
deriving DecidableEq, Repr

/-- One `TextSection` of a `Text`. -/
structure TextSection where
  value : String
  style : TextStyle
deriving DecidableEq, Repr

/-- `Text` (wrapped by the repo's `UiText` newtype): sections plus the
justification and line-break enums, opaque to this adapter. -/
structure Text where
  sections : List TextSection
  justify : ℕ
  linebreak_behavior : ℕ
deriving DecidableEq, Repr

/-- `GlyphAtlasInfo`: which texture atlas asset, which rect inside it,
and the atlas texture image handle. -/
structure GlyphAtlasInfo where
  texture_atlas : ℕ
  glyph_index : ℕ
  texture : ℕ
deriving DecidableEq, Repr

/-- `PositionedGlyph` as read by the extraction loop. -/
structure PositionedGlyph where
  position : Vec2
  atlas_info : GlyphAtlasInfo
  section_index : ℕ
deriving DecidableEq, Repr

/-- `TextLayoutInfo`: the cached layout result component. -/
structure TextLayoutInfo where
  glyphs : List PositionedGlyph
  logical_size : Vec2
deriving DecidableEq, Repr

/-- `bevy::text::scale_value(value, factor) = value * factor`. -/
def scale_value (value factor : ℚ) : ℚ := value * factor

/-! ## Layout stage (`update_ui_independent_text_layout`) -/

/-- The two `TextError` variants `queue_text` can return. -/
inductive TextError where
  | noSuchFont
  | failedToAddGlyph
deriving DecidableEq, Repr

/-- The host text pipeline's `queue_text`, abstracted: the arguments the
adapter passes (sections, scale factor, justify, line-break behavior,
bounds) determine a result; the mutable atlas stores it also receives are
host state outside the adapter's logic. -/
abbrev QueueText := List TextSection → ℚ → ℕ → ℕ → Vec2 → Except TextError TextLayoutInfo

/-- Per-entity component data seen by the layout query:
`(Entity, Ref<UiText>, Option<&Text2dBounds>, &mut TextLayoutInfo)`.
`text_changed` is the host change-detection flag `Ref::is_changed`
(true on creation and on mutation this frame). -/
structure EntityRecord where
  text : Text
  text_changed : Bool
  bounds : Option Vec2
  layout : TextLayoutInfo
deriving DecidableEq, Repr

/-- Lines 94–100: the effective wrap box in device pixels. -/
def textBounds (maybe_bounds : Option Vec2) (scale_factor : ℚ) : Vec2 :=
  match maybe_bounds with
  | some bounds => ⟨scale_value bounds.x scale_factor, scale_value bounds.y scale_factor⟩
  | none => ⟨f32MAX, f32MAX⟩

/-- Outcome of one entity's pass through the loop body. -/
inductive AttemptOutcome where
  | skipped
  | wrote
  | deferred
  | fatal
deriving DecidableEq, Repr

/-- Line 93's trigger condition
`factor_changed || ui_text.is_changed() || queue.remove(&entity)`. -/
def layoutTriggered (factor_changed : Bool) (rec : EntityRecord) (e : ℕ)
    (queue : Finset ℕ) : Bool :=
  factor_changed || rec.text_changed || decide (e ∈ queue)

/-- Lines 91–128, one iteration of the entity loop.  `queue.remove` both
tests membership and erases; Rust's `||` short-circuits, so the erase
happens only when `factor_changed` and `is_changed` are both false.
Returns the updated record, the updated queue, and the outcome
(`fatal` models the `panic!` on `FailedToAddGlyph`; the record and queue
returned alongside it are the state at the moment of the abort). -/
def runLayoutEntity (qt : QueueText) (scale_factor : ℚ) (factor_changed : Bool)
    (e : ℕ) (rec : EntityRecord) (queue : Finset ℕ) :
    EntityRecord × Finset ℕ × AttemptOutcome :=
  let queue1 : Finset ℕ :=
    if factor_changed || rec.text_changed then queue else queue.erase e
  if layoutTriggered factor_changed rec e queue then
    match qt rec.text.sections scale_factor rec.text.justify
        rec.text.linebreak_behavior (textBounds rec.bounds scale_factor) with
    | .error .noSuchFont => (rec, insert e queue1, .deferred)
    | .error .failedToAddGlyph => (rec, queue1, .fatal)
    | .ok text_layout_info =>
        -- Lines 121–124 assign the scale-compensated logical size into the
        -- *old* component, line 125 then overwrites the whole component
        -- with `text_layout_info`; the embedding reproduces both steps.
        let rec1 := { rec with layout :=
          { rec.layout with logical_size :=
            ⟨scale_value text_layout_info.logical_size.x (1 / scale_factor),
             scale_value text_layout_info.logical_size.y (1 / scale_factor)⟩ } }
        ({ rec1 with layout := text_layout_info }, queue1, .wrote)
  else
    (rec, queue1, .skipped)

/-- The loop over the query's entities, threading the retry queue.  On a
`fatal` outcome iteration stops: the failing entity's record and all
later records are returned unchanged and the third component is `true`
(the system panicked). -/
def runEntities (qt : QueueText) (scale_factor : ℚ) (factor_changed : Bool) :
    List (ℕ × EntityRecord) → Finset ℕ →
    List (ℕ × EntityRecord) × Finset ℕ × Bool
  | [], queue => ([], queue, false)
  | (e, rec) :: rest, queue =>
    match runLayoutEntity qt scale_factor factor_changed e rec queue with
    | (_, queue1, .fatal) => ((e, rec) :: rest, queue1, true)
    | (rec1, queue1, _) =>
        let (rest1, queue2, panicked) := runEntities qt scale_factor factor_changed rest queue1
        ((e, rec1) :: rest1, queue2, panicked)

/-- The layout world the system touches: the queried entities (in
iteration order, keyed by entity id) and the `Local<HashSet<Entity>>`
retry queue. -/
structure LayoutWorld where
  entities : List (ℕ × EntityRecord)
  queue : Finset ℕ
deriving DecidableEq

/-- The whole system `update_ui_independent_text_layout` for one frame.
`events` is the full `WindowScaleFactorChanged` event list, `cursor` the
`EventReader`'s position in it; line 86 reads (and thereby consumes) all
pending events *before* the primary-window lookup on lines 87–90, whose
failure returns early.  `window` is the primary window's scale factor
when the window query resolves.  Returns the new cursor, the new world
and whether the system panicked. -/
def layoutSystem (qt : QueueText) (window : Option ℚ) (events : List Unit)
    (cursor : ℕ) (w : LayoutWorld) : ℕ × LayoutWorld × Bool :=
  let factor_changed := !(events.drop cursor).isEmpty
  let cursor1 := events.length
  match window with
  | none => (cursor1, w, false)
  | some scale_factor =>
      let (entities1, queue1, panicked) :=
        runEntities qt scale_factor factor_changed w.entities w.queue
      (cursor1, ⟨entities1, queue1⟩, panicked)

/-! ## Extraction stage (`extract_text_sprite`) -/

/-- `Rect` (the result of `URect::as_rect`, and the `rect` field of an
extracted node). -/
structure Rect where
  min : Vec2
  max : Vec2
deriving DecidableEq, Repr

/-- `TextureAtlasLayout`: the atlas texture size (`as_vec2` applied) and
the per-glyph rectangles (`as_rect` applied; the `u32 → f32` conversions
are exact at texture scales). -/
structure TextureAtlasLayout where
  size : Vec2
  textures : List Rect
deriving DecidableEq, Repr

/-- `NodeType` — only `Rect` is emitted here. -/
inductive NodeType where
  | rect
  | border
deriving DecidableEq, Repr

/-- `ExtractedUiNode`, the draw primitive inserted into
`ExtractedUiNodes` (keyed there by a freshly spawned entity id, so every
insertion is a distinct entry; the embedding keeps insertion order in a
list). -/
structure ExtractedUiNode where
  stack_index : ℕ
  transform : Affine3
  color : ColorV
  rect : Rect
  image : ℕ
  atlas_size : Option Vec2
  clip : Option Rect
  flip_x : Bool
  flip_y : Bool
  camera_entity : ℕ
  border : Vec2 × Vec2
  border_radius : Vec2 × Vec2
  node_type : NodeType
deriving DecidableEq, Repr

/-- The extraction system's read-only context: the camera query
(entity id ↦ `Camera::target_scaling_factor()`), the `DefaultUiCamera`
resolver, and the `Assets<TextureAtlasLayout>` store (asset id ↦ layout). -/
structure ExtractCtx where
  cameras : List (ℕ × Option ℚ)
  defaultUiCamera : Option ℕ
  atlases : List (ℕ × TextureAtlasLayout)
deriving DecidableEq

/-- One row of the extraction query:
`(&GlobalTransform, &UiText, &ViewVisibility, &TextLayoutInfo, Option<&TargetCamera>)`. -/
structure ExtractInput where
  global_transform : Affine3
  text : Text
  view_visibility : Bool
  text_layout : TextLayoutInfo
  target_camera : Option ℕ
deriving DecidableEq

/-- Lines 163–167: the resolved camera's render-target scale factor,
defaulting to `1.0` when the camera lookup or
`target_scaling_factor()` fails. -/
def cameraScaleFactor (ctx : ExtractCtx) (camera_entity : ℕ) : ℚ :=
  (((ctx.cameras.lookup camera_entity).bind id)).getD 1

/-- `usize::MAX`, the initial `current_section` sentinel (line 182). -/
def usizeMAX : ℕ := 2 ^ 64 - 1

/-- Lines 174–179: the base transform — world affine composed with the
centering-offset translation — with its translation snapped to the
nearest device pixel (scale up by the camera scale factor, round, scale
back down). -/
def snappedBaseTransform (global_transform : Affine3) (alignment_offset : Vec2)
    (scale_factor : ℚ) : Affine3 :=
  let transform :=
    global_transform.mul (Affine3.fromTranslation (alignment_offset.extend 0))
  let t1 := Vec3.smul scale_factor transform.translation
  let t2 := t1.roundv
  { transform with translation := Vec3.smul scale_factor⁻¹ t2 }

/-- Lines 200–204: the transform actually written into the emitted node:
`global_transform.compute_matrix() * Mat4::from_scale(1/s) *
Mat4::from_translation(alignment_offset * s + position)`. -/
def extractedTransform (global_transform : Affine3) (alignment_offset : Vec2)
    (scale_factor : ℚ) (position : Vec2) : Affine3 :=
  global_transform.mul
    ((Affine3.fromScale ⟨scale_factor⁻¹, scale_factor⁻¹, scale_factor⁻¹⟩).mul
      (Affine3.fromTranslation
        ((Vec3.smul scale_factor (alignment_offset.extend 0)).add (position.extend 0))))

/-- Lines 183–223, the glyph loop.  `color`/`current_section` thread the
loop's section-color cache (`current_section` starts at `usize::MAX`).
`none` models a panic: the out-of-bounds index `text.sections[i]`, the
`texture_atlases.get(..).unwrap()`, or the out-of-bounds
`atlas.textures[i]`.  (On a panic mid-loop the nodes already inserted
are moot — the process aborts — so the per-entity result is
all-or-nothing.) -/
def extractGlyphs (ctx : ExtractCtx) (text : Text) (global_transform : Affine3)
    (alignment_offset : Vec2) (scale_factor : ℚ) (camera_entity : ℕ) :
    ColorV → ℕ → List PositionedGlyph → Option (List ExtractedUiNode)
  | _, _, [] => some []
  | color, current_section, glyph :: rest =>
    let updated : Option (ColorV × ℕ) :=
      if glyph.section_index ≠ current_section then
        match text.sections[glyph.section_index]? with
        | none => none
        | some sec => some (sec.style.color, glyph.section_index)
      else
        some (color, current_section)
    match updated with
    | none => none
    | some (color1, current_section1) =>
      match ctx.atlases.lookup glyph.atlas_info.texture_atlas with
      | none => none
      | some atlas =>
        match atlas.textures[glyph.atlas_info.glyph_index]? with
        | none => none
        | some rect0 =>
          let inverse_scale_factor := scale_factor⁻¹
          let rect : Rect :=
            ⟨⟨rect0.min.x * inverse_scale_factor, rect0.min.y * inverse_scale_factor⟩,
             ⟨rect0.max.x * inverse_scale_factor, rect0.max.y * inverse_scale_factor⟩⟩
          let node : ExtractedUiNode :=
            { stack_index := u32cast global_transform.translation.z
              transform := extractedTransform global_transform alignment_offset
                scale_factor glyph.position
              color := color1
              rect := rect
              image := glyph.atlas_info.texture
              atlas_size := some ⟨atlas.size.x * inverse_scale_factor,
                                  atlas.size.y * inverse_scale_factor⟩
              clip := none
              flip_x := false
              flip_y := false
              camera_entity := camera_entity
              border := (⟨0, 0⟩, ⟨0, 0⟩)
              border_radius := (⟨0, 0⟩, ⟨0, 0⟩)
              node_type := .rect }
          match extractGlyphs ctx text global_transform alignment_offset scale_factor
              camera_entity color1 current_section1 rest with
          | none => none
          | some nodes => some (node :: nodes)

/-- Lines 163–223: the per-entity extraction body after the camera has
resolved to `camera_entity`.  The snapped base transform of lines
174–179 is computed here and — exactly as in the source — never read
again: the glyph loop rebuilds its transforms from the raw
`global_transform`. -/
def extractResolved (ctx : ExtractCtx) (inp : ExtractInput) (camera_entity : ℕ) :
    Option (List ExtractedUiNode) :=
  let scale_factor := cameraScaleFactor ctx camera_entity
  let width := inp.text_layout.logical_size.x
  let height := inp.text_layout.logical_size.y
  let alignment_offset : Vec2 := ⟨-width * (1 / 2), -height * (1 / 2)⟩
  let transform := snappedBaseTransform inp.global_transform alignment_offset scale_factor
  extractGlyphs ctx inp.text inp.global_transform alignment_offset scale_factor
    camera_entity colorWHITE usizeMAX inp.text_layout.glyphs

/-- Lines 149–224, one entity of `extract_text_sprite`: skip (emit
nothing) when the computed visibility is false or no camera resolves;
otherwise run the resolved body.  `none` models a panic. -/
def extractEntity (ctx : ExtractCtx) (inp : ExtractInput) :
    Option (List ExtractedUiNode) :=
  if !inp.view_visibility then
    some []
  else
    match inp.target_camera.or ctx.defaultUiCamera with
    | none => some []
    | some camera_entity => extractResolved ctx inp camera_entity

/-- The per-glyph precondition of the extraction loop's unchecked
indexing: the cached section index is in range for the *current* text's
sections, the referenced texture atlas asset exists, and the glyph index
is in range for that atlas. -/
def validGlyph (text : Text) (atlases : List (ℕ × TextureAtlasLayout))
    (g : PositionedGlyph) : Bool :=
  decide (g.section_index < text.sections.length) &&
    match atlases.lookup g.atlas_info.texture_atlas with
    | none => false
    | some atlas => decide (g.atlas_info.glyph_index < atlas.textures.length)

/-! ## Theorems -/

/-- After one entity's pass, the retry queue can only have gained that
entity itself: everything else is preserved or erased, never added. -/
theorem runLayoutEntity_queue_subset (qt : QueueText) (sf : ℚ) (fc : Bool)
    (e : ℕ) (rec : EntityRecord) (queue : Finset ℕ) :
    (runLayoutEntity qt sf fc e rec queue).2.1 ⊆ insert e queue := by
  simp only [runLayoutEntity]
  set q1 := if (fc || rec.text_changed) = true then queue else queue.erase e with hq1
  have hsub : q1 ⊆ queue := by
    rw [hq1]
    split
    · exact Finset.Subset.refl queue
    · exact Finset.erase_subset e queue
  split
  · split
    · exact Finset.insert_subset_insert e hsub
    · exact hsub.trans (Finset.subset_insert e queue)
    · exact hsub.trans (Finset.subset_insert e queue)
  · exact hsub.trans (Finset.subset_insert e queue)

/-- Claim C1 (code bug): on a successful layout attempt the stage stores
the raw device-pixel logical size, not the size divided by the scale
factor: lines 121–124 write the compensated size into the old component,
which line 125 then overwrites wholesale with the pipeline's
`text_layout_info`.  At scale factor 2 with a returned logical size
(10, 6), the stored logical size is (10, 6); the claimed division would
give (5, 3). -/
theorem layout_logical_size_division_clobbered :
    layoutSystem (fun _ _ _ _ _ => .ok ⟨[], ⟨10, 6⟩⟩) (some 2) [] 0
        ⟨[(0, ⟨⟨[], 0, 0⟩, true, none, ⟨[], ⟨0, 0⟩⟩⟩)], ∅⟩ =
      (0, ⟨[(0, ⟨⟨[], 0, 0⟩, true, none, ⟨[], ⟨10, 6⟩⟩⟩)], ∅⟩, false) ∧
    (scale_value 10 (1 / 2), scale_value 6 (1 / 2)) = ((5 : ℚ), (3 : ℚ)) ∧
    ((⟨10, 6⟩ : Vec2) ≠ ⟨5, 3⟩) := by
  refine ⟨by decide, ?_, by decide⟩
  norm_num [scale_value, Prod.ext_iff]

/-- Claim C2, counterexample: with a pending scale-factor change, an
entity sitting in the retry queue gets a *successful* layout attempt
(outcome `wrote`), yet is still in the retry queue after the frame —
`queue.remove` sits after two short-circuiting `||`s, so it is never
reached when `factor_changed` already triggered the attempt. -/
theorem retry_queue_kept_on_scale_change_success :
    (runLayoutEntity (fun _ _ _ _ _ => .ok ⟨[], ⟨1, 1⟩⟩) 1 true 0
        ⟨⟨[], 0, 0⟩, false, none, ⟨[], ⟨0, 0⟩⟩⟩ {0}).2.2 = .wrote ∧
    0 ∈ (layoutSystem (fun _ _ _ _ _ => .ok ⟨[], ⟨1, 1⟩⟩) (some 1) [()] 0
        ⟨[(0, ⟨⟨[], 0, 0⟩, false, none, ⟨[], ⟨0, 0⟩⟩⟩)], {0}⟩).2.1.queue := by
  decide

/-- Claim C2, amended: after the layout stage processes an entity, that
entity is in the retry queue iff its attempt this frame was deferred by
a missing font, or it was already queued and the attempt was triggered
by the scale-factor change or the text-change flag (in which case the
short-circuited `queue.remove` is never reached, so even a successful
attempt leaves the stale queue entry in place). -/
theorem retry_queue_membership_after_attempt (qt : QueueText) (sf : ℚ) (fc : Bool)
    (e : ℕ) (rec : EntityRecord) (queue : Finset ℕ) :
    e ∈ (runLayoutEntity qt sf fc e rec queue).2.1 ↔
      (runLayoutEntity qt sf fc e rec queue).2.2 = .deferred ∨
        (e ∈ queue ∧ (fc || rec.text_changed) = true) := by
  unfold runLayoutEntity layoutTriggered
  cases hfc : fc <;> cases htc : rec.text_changed <;> by_cases hq : e ∈ queue <;>
    simp only [Bool.false_or, Bool.true_or, Bool.or_true, Bool.or_false, hq,
      decide_True, decide_False, if_true, if_false, Bool.or_self] <;>
    (rcases hres : qt rec.text.sections sf rec.text.justify rec.text.linebreak_behavior
        (textBounds rec.bounds sf) with te | info
     · cases te <;> simp [hq]
     · simp [hq])

/-- Claim C6: a layout attempt occurs for an entity iff the scale factor
changed, the text component was created/mutated, or the entity is in the
retry queue; when none hold the entity is skipped with its record and
the queue untouched; a scale-factor change forces an attempt regardless
of the entity's own change flag. -/
theorem layout_trigger_iff (qt : QueueText) (sf : ℚ) (fc : Bool) (e : ℕ)
    (rec : EntityRecord) (queue : Finset ℕ) :
    ((runLayoutEntity qt sf fc e rec queue).2.2 ≠ .skipped ↔
      (fc = true ∨ rec.text_changed = true ∨ e ∈ queue)) ∧
    ((runLayoutEntity qt sf fc e rec queue).2.2 = .skipped →
      runLayoutEntity qt sf fc e rec queue = (rec, queue, .skipped)) ∧
    (fc = true → (runLayoutEntity qt sf fc e rec queue).2.2 ≠ .skipped) := by
  unfold runLayoutEntity layoutTriggered
  cases hfc : fc <;> cases htc : rec.text_changed <;> by_cases hq : e ∈ queue <;>
    simp only [Bool.false_or, Bool.true_or, Bool.or_true, Bool.or_false, hq,
      decide_True, decide_False, if_true, if_false, Bool.or_self] <;>
    (rcases hres : qt rec.text.sections sf rec.text.justify rec.text.linebreak_behavior
        (textBounds rec.bounds sf) with te | info
     · cases te <;> simp [hq, Finset.erase_eq_of_not_mem]
     · simp [hq, Finset.erase_eq_of_not_mem])

/-- Claim C4: for an entity whose text component was created or mutated
this frame, an attempt occurs (it is not skipped), and — when the
pipeline does not hit the fatal error — exactly one of two outcomes
happens: on success the layout component is overwritten with the
returned layout and the retry queue is untouched (the entity is not
enqueued); on `NoSuchFont` the record, its cached layout included, is
left exactly as it was and the entity is inserted into the retry queue.
No other state changes, and no error is surfaced (`deferred` is not
`fatal`). -/
theorem text_change_attempt_dichotomy (qt : QueueText) (sf : ℚ) (fc : Bool)
    (e : ℕ) (rec : EntityRecord) (queue : Finset ℕ)
    (hchanged : rec.text_changed = true) :
    (runLayoutEntity qt sf fc e rec queue).2.2 ≠ .skipped ∧
    (∀ info, qt rec.text.sections sf rec.text.justify rec.text.linebreak_behavior
        (textBounds rec.bounds sf) = .ok info →
      runLayoutEntity qt sf fc e rec queue =
        ({ rec with layout := info }, queue, .wrote)) ∧
    (qt rec.text.sections sf rec.text.justify rec.text.linebreak_behavior
        (textBounds rec.bounds sf) = .error .noSuchFont →
      runLayoutEntity qt sf fc e rec queue = (rec, insert e queue, .deferred)) := by
  unfold runLayoutEntity layoutTriggered
  cases hfc : fc <;>
    simp only [hchanged, Bool.or_true, Bool.true_or, Bool.false_or, if_true] <;>
    (rcases hres : qt rec.text.sections sf rec.text.justify rec.text.linebreak_behavior
        (textBounds rec.bounds sf) with te | info
     · cases te <;> simp [hres]
     · simp [hres])

/-- Witness for `text_change_attempt_dichotomy` at a concrete changed
entity whose layout attempt succeeds. -/
theorem text_change_attempt_dichotomy_witness :
    runLayoutEntity (fun _ _ _ _ _ => .ok ⟨[], ⟨8, 4⟩⟩) 2 false 3
        ⟨⟨[], 0, 0⟩, true, none, ⟨[], ⟨1, 1⟩⟩⟩ ∅ =
      (⟨⟨[], 0, 0⟩, true, none, ⟨[], ⟨8, 4⟩⟩⟩, ∅, .wrote) :=
  (text_change_attempt_dichotomy (fun _ _ _ _ _ => .ok ⟨[], ⟨8, 4⟩⟩) 2 false 3
      ⟨⟨[], 0, 0⟩, true, none, ⟨[], ⟨1, 1⟩⟩⟩ ∅ rfl).2.1 ⟨[], ⟨8, 4⟩⟩ rfl

/-- Appending to the entity list: when the prefix runs without a panic,
the loop continues into the suffix with the prefix's final queue. -/
theorem runEntities_append (qt : QueueText) (sf : ℚ) (fc : Bool)
    (as : List (ℕ × EntityRecord)) :
    ∀ (bs : List (ℕ × EntityRecord)) (queue : Finset ℕ)
      (as1 : List (ℕ × EntityRecord)) (q1 : Finset ℕ),
      runEntities qt sf fc as queue = (as1, q1, false) →
      runEntities qt sf fc (as ++ bs) queue =
        (as1 ++ (runEntities qt sf fc bs q1).1, (runEntities qt sf fc bs q1).2) := by
  induction as with
  | nil =>
    intro bs queue as1 q1 h
    simp only [runEntities, Prod.mk.injEq] at h
    obtain ⟨ha, hq, -⟩ := h
    subst ha
    subst hq
    rw [List.nil_append, List.nil_append]
  | cons hd rest ih =>
    intro bs queue as1 q1 h
    obtain ⟨e, rec⟩ := hd
    rcases hstep : runLayoutEntity qt sf fc e rec queue with ⟨rec1, queue1, out⟩
    rcases hrest : runEntities qt sf fc rest queue1 with ⟨rest1, q2, p⟩
    cases out
    case fatal =>
      simp only [runEntities, hstep] at h
      exact absurd (congrArg (fun p => p.2.2) h) (by simp)
    all_goals
      simp only [runEntities, hstep, hrest, Prod.mk.injEq] at h
      obtain ⟨ha, hq2, hp⟩ := h
      subst ha
      subst hq2
      subst hp
      rw [List.cons_append]
      simp only [runEntities, hstep]
      rw [ih bs queue1 rest1 q2 hrest]
      try simp

/-- Claim C5: when a triggered entity's `queue_text` call fails with
`FailedToAddGlyph`, the stage aborts (the `panic!` on lines 117–119):
the loop's result marks the abort, the failing entity's record — its
cached layout included — is never written, and every entity after it in
iteration order is left untouched. -/
theorem fatal_glyph_error_aborts_stage (qt : QueueText) (sf : ℚ) (fc : Bool)
    (pre post : List (ℕ × EntityRecord)) (pre1 : List (ℕ × EntityRecord))
    (e : ℕ) (rec : EntityRecord) (queue q1 : Finset ℕ)
    (hpre : runEntities qt sf fc pre queue = (pre1, q1, false))
    (htrig : layoutTriggered fc rec e q1 = true)
    (hfatal : qt rec.text.sections sf rec.text.justify rec.text.linebreak_behavior
        (textBounds rec.bounds sf) = .error .failedToAddGlyph) :
    (runEntities qt sf fc (pre ++ (e, rec) :: post) queue).1 = pre1 ++ (e, rec) :: post ∧
    (runEntities qt sf fc (pre ++ (e, rec) :: post) queue).2.2 = true := by
  have hstep : (runLayoutEntity qt sf fc e rec q1).2.2 = .fatal ∧
      (runLayoutEntity qt sf fc e rec q1).1 = rec := by
    unfold runLayoutEntity
    simp [htrig, hfatal]
  rcases hs : runLayoutEntity qt sf fc e rec q1 with ⟨rec1, queue1, out⟩
  rw [hs] at hstep
  obtain ⟨hout, hrec⟩ := hstep
  simp only at hout hrec
  subst hout
  have habort : runEntities qt sf fc ((e, rec) :: post) q1 = ((e, rec) :: post, queue1, true) := by
    simp only [runEntities, hs]
  rw [runEntities_append qt sf fc pre ((e, rec) :: post) queue pre1 q1 hpre, habort]
  exact ⟨rfl, rfl⟩

/-- Witness for `fatal_glyph_error_aborts_stage`: a two-entity world
whose second entity hits the fatal glyph-insertion error. -/
theorem fatal_glyph_error_aborts_stage_witness :
    (runEntities (fun _ _ _ _ _ => .error .failedToAddGlyph) 1 false
        ([(0, ⟨⟨[], 0, 0⟩, false, none, ⟨[], ⟨0, 0⟩⟩⟩)] ++
          (1, ⟨⟨[], 0, 0⟩, true, none, ⟨[], ⟨2, 2⟩⟩⟩) ::
            [(2, ⟨⟨[], 0, 0⟩, true, none, ⟨[], ⟨3, 3⟩⟩⟩)]) ∅).1 =
      [(0, ⟨⟨[], 0, 0⟩, false, none, ⟨[], ⟨0, 0⟩⟩⟩)] ++
        (1, ⟨⟨[], 0, 0⟩, true, none, ⟨[], ⟨2, 2⟩⟩⟩) ::
          [(2, ⟨⟨[], 0, 0⟩, true, none, ⟨[], ⟨3, 3⟩⟩⟩)] ∧
    (runEntities (fun _ _ _ _ _ => .error .failedToAddGlyph) 1 false
        ([(0, ⟨⟨[], 0, 0⟩, false, none, ⟨[], ⟨0, 0⟩⟩⟩)] ++
          (1, ⟨⟨[], 0, 0⟩, true, none, ⟨[], ⟨2, 2⟩⟩⟩) ::
            [(2, ⟨⟨[], 0, 0⟩, true, none, ⟨[], ⟨3, 3⟩⟩⟩)]) ∅).2.2 = true :=
  fatal_glyph_error_aborts_stage (fun _ _ _ _ _ => .error .failedToAddGlyph) 1 false
    [(0, ⟨⟨[], 0, 0⟩, false, none, ⟨[], ⟨0, 0⟩⟩⟩)]
    [(2, ⟨⟨[], 0, 0⟩, true, none, ⟨[], ⟨3, 3⟩⟩⟩)]
    [(0, ⟨⟨[], 0, 0⟩, false, none, ⟨[], ⟨0, 0⟩⟩⟩)]
    1 ⟨⟨[], 0, 0⟩, true, none, ⟨[], ⟨2, 2⟩⟩⟩ ∅ ∅ (by decide) (by decide) rfl

/-- An entity with an unchanged text component that is not in the retry
queue passes through the loop untouched, whatever happens to the other
entities (their inserts only ever add their own ids). -/
theorem runEntities_preserves_skipped (qt : QueueText) (sf : ℚ) :
    ∀ (es : List (ℕ × EntityRecord)) (queue : Finset ℕ) (e : ℕ) (rec : EntityRecord),
      (e, rec) ∈ es → rec.text_changed = false → e ∉ queue →
      (es.map Prod.fst).Nodup →
      (e, rec) ∈ (runEntities qt sf false es queue).1 := by
  intro es
  induction es with
  | nil => intro queue e rec hmem; cases hmem
  | cons hd rest ih =>
    intro queue e rec hmem htc hq hnodup
    obtain ⟨e', rec'⟩ := hd
    rcases List.mem_cons.mp hmem with hhead | htail
    · obtain ⟨he, hrec⟩ := Prod.mk.injEq _ _ _ _ ▸ hhead
      have hstep : runLayoutEntity qt sf false e' rec' queue =
          (rec', queue.erase e', .skipped) := by
        unfold runLayoutEntity layoutTriggered
        simp [← he, ← hrec, htc, hq]
      simp only [runEntities, hstep]
      exact List.mem_cons.mpr (Or.inl hhead)
    · have hne : e ≠ e' := by
        intro he
        subst he
        have : e ∈ rest.map Prod.fst := List.mem_map_of_mem Prod.fst htail
        simp only [List.map_cons, List.nodup_cons] at hnodup
        exact hnodup.1 this
      rcases hstep : runLayoutEntity qt sf false e' rec' queue with ⟨rec1, queue1, out⟩
      have hq1 : e ∉ queue1 := by
        intro hmem1
        have hsub := runLayoutEntity_queue_subset qt sf false e' rec' queue
        rw [hstep] at hsub
        rcases Finset.mem_insert.mp (hsub hmem1) with h | h
        · exact hne h
        · exact hq h
      have hnodup' : (rest.map Prod.fst).Nodup := by
        simp only [List.map_cons, List.nodup_cons] at hnodup
        exact hnodup.2
      cases out
      case fatal =>
        simp only [runEntities, hstep]
        exact List.mem_cons_of_mem _ htail
      all_goals
        simp only [runEntities, hstep]
        rcases hrest : runEntities qt sf false rest queue1 with ⟨rest1, q2, p⟩
        have := ih queue1 e rec htail htc hq1 hnodup'
        rw [hrest] at this
        simpa using List.mem_cons_of_mem (e', rec1) this

/-- Claim C10: when the primary-window query does not resolve, the
layout stage returns early — the world (every record and the retry
queue) is exactly as before — but the scale-factor events were already
consumed by the `read()` on line 86, so the reader's cursor has moved
past them; in a later frame with no new events (cursor at the end of the
event list), no attempt is made for any entity that is not otherwise
triggered: its record survives unchanged. -/
theorem window_miss_consumes_events (qt : QueueText) (events : List Unit)
    (cursor : ℕ) (w : LayoutWorld) :
    layoutSystem qt none events cursor w = (events.length, w, false) ∧
    (∀ (sf : ℚ) (w2 : LayoutWorld) (e : ℕ) (rec : EntityRecord),
      (e, rec) ∈ w2.entities → rec.text_changed = false → e ∉ w2.queue →
      (w2.entities.map Prod.fst).Nodup →
      (e, rec) ∈ (layoutSystem qt (some sf) events events.length w2).2.1.entities) := by
  constructor
  · rfl
  · intro sf w2 e rec hmem htc hq hnodup
    simp only [layoutSystem, List.drop_length, List.isEmpty_nil, Bool.not_true]
    exact runEntities_preserves_skipped qt sf w2.entities w2.queue e rec hmem htc hq hnodup

/-- Witness for `window_miss_consumes_events`: a frame with a pending
scale-factor event and no primary window leaves the world untouched, and
the following frame (same event list, no new events) leaves an
unchanged, unqueued entity's record in place. -/
theorem window_miss_consumes_events_witness :
    layoutSystem (fun _ _ _ _ _ => .error .noSuchFont) none [()] 0
        ⟨[(0, ⟨⟨[], 0, 0⟩, false, none, ⟨[], ⟨0, 0⟩⟩⟩)], ∅⟩ =
      (1, ⟨[(0, ⟨⟨[], 0, 0⟩, false, none, ⟨[], ⟨0, 0⟩⟩⟩)], ∅⟩, false) ∧
    (0, (⟨⟨[], 0, 0⟩, false, none, ⟨[], ⟨0, 0⟩⟩⟩ : EntityRecord)) ∈
      (layoutSystem (fun _ _ _ _ _ => .error .noSuchFont) (some 1) [()] 1
        ⟨[(0, ⟨⟨[], 0, 0⟩, false, none, ⟨[], ⟨0, 0⟩⟩⟩)], ∅⟩).2.1.entities :=
  ⟨(window_miss_consumes_events (fun _ _ _ _ _ => .error .noSuchFont) [()] 0
      ⟨[(0, ⟨⟨[], 0, 0⟩, false, none, ⟨[], ⟨0, 0⟩⟩⟩)], ∅⟩).1,
    (window_miss_consumes_events (fun _ _ _ _ _ => .error .noSuchFont) [()] 0
      ⟨[(0, ⟨⟨[], 0, 0⟩, false, none, ⟨[], ⟨0, 0⟩⟩⟩)], ∅⟩).2 1
      ⟨[(0, ⟨⟨[], 0, 0⟩, false, none, ⟨[], ⟨0, 0⟩⟩⟩)], ∅⟩ 0
      ⟨⟨[], 0, 0⟩, false, none, ⟨[], ⟨0, 0⟩⟩⟩
      (List.mem_singleton.mpr rfl) rfl (Finset.not_mem_empty 0) (by decide)⟩

/-- Every node the glyph loop emits carries the camera entity it was
resolved against and the entity's depth coordinate truncated to `u32`
as its stacking order. -/
theorem extractGlyphs_mem_fields (ctx : ExtractCtx) (text : Text) (gt : Affine3)
    (ao : Vec2) (sf : ℚ) (ce : ℕ) :
    ∀ (gs : List PositionedGlyph) (col : ColorV) (cs : ℕ)
      (nodes : List ExtractedUiNode),
      extractGlyphs ctx text gt ao sf ce col cs gs = some nodes →
      ∀ n ∈ nodes, n.camera_entity = ce ∧ n.stack_index = u32cast gt.translation.z := by
  intro gs
  induction gs with
  | nil =>
    intro col cs nodes h n hn
    simp only [extractGlyphs, Option.some.injEq] at h
    subst h
    cases hn
  | cons g rest ih =>
    intro col cs nodes h n hn
    simp only [extractGlyphs] at h
    by_cases hsec : g.section_index ≠ cs
    · rw [if_pos hsec] at h
      cases hlook : text.sections[g.section_index]? with
      | none => rw [hlook] at h; simp at h
      | some sec =>
        rw [hlook] at h
        simp only at h
        cases hatlas : ctx.atlases.lookup g.atlas_info.texture_atlas with
        | none => rw [hatlas] at h; simp at h
        | some atlas =>
          rw [hatlas] at h
          simp only at h
          cases hrect : atlas.textures[g.atlas_info.glyph_index]? with
          | none => rw [hrect] at h; simp at h
          | some rect0 =>
            rw [hrect] at h
            simp only at h
            cases hrec2 : extractGlyphs ctx text gt ao sf ce sec.style.color
                g.section_index rest with
            | none => rw [hrec2] at h; simp at h
            | some nodes1 =>
              rw [hrec2] at h
              simp only [Option.some.injEq] at h
              subst h
              rcases List.mem_cons.mp hn with hn1 | hn1
              · subst hn1; exact ⟨rfl, rfl⟩
              · exact ih sec.style.color g.section_index nodes1 hrec2 n hn1
    · rw [if_neg hsec] at h
      cases hatlas : ctx.atlases.lookup g.atlas_info.texture_atlas with
      | none => rw [hatlas] at h; simp at h
      | some atlas =>
        rw [hatlas] at h
        simp only at h
        cases hrect : atlas.textures[g.atlas_info.glyph_index]? with
        | none => rw [hrect] at h; simp at h
        | some rect0 =>
          rw [hrect] at h
          simp only at h
          cases hrec2 : extractGlyphs ctx text gt ao sf ce col cs rest with
          | none => rw [hrec2] at h; simp at h
          | some nodes1 =>
            rw [hrec2] at h
            simp only [Option.some.injEq] at h
            subst h
            rcases List.mem_cons.mp hn with hn1 | hn1
            · subst hn1; exact ⟨rfl, rfl⟩
            · exact ih col cs nodes1 hrec2 n hn1

/-- The glyph loop reads only the atlas store from its context: the
camera list and default camera are not consulted inside the loop. -/
theorem extractGlyphs_eq_of_atlases (ctx ctx2 : ExtractCtx)
    (h : ctx.atlases = ctx2.atlases) (text : Text) (gt : Affine3) (ao : Vec2)
    (sf : ℚ) (ce : ℕ) :
    ∀ (gs : List PositionedGlyph) (col : ColorV) (cs : ℕ),
      extractGlyphs ctx text gt ao sf ce col cs gs =
        extractGlyphs ctx2 text gt ao sf ce col cs gs := by
  intro gs
  induction gs with
  | nil => intro col cs; rfl
  | cons g rest ih =>
    intro col cs
    simp only [extractGlyphs, h]
    split
    · rfl
    · split
      · rfl
      · split
        · rfl
        · rw [ih]

/-- Fields of the nodes an entity's extraction emits: the resolved
camera id, and the depth truncated to `u32` as the stacking order. -/
theorem extractEntity_node_fields (ctx : ExtractCtx) (inp : ExtractInput)
    (nodes : List ExtractedUiNode) (h : extractEntity ctx inp = some nodes) :
    ∀ n ∈ nodes,
      (∀ c, inp.target_camera.or ctx.defaultUiCamera = some c → n.camera_entity = c) ∧
      n.stack_index = u32cast inp.global_transform.translation.z := by
  cases hv : inp.view_visibility with
  | false =>
    unfold extractEntity at h
    rw [hv] at h
    simp only [Bool.not_false, if_true, Option.some.injEq] at h
    subst h
    intro n hn
    cases hn
  | true =>
    unfold extractEntity at h
    rw [hv] at h
    simp only [Bool.not_true, Bool.false_eq_true, if_false] at h
    cases hcam : inp.target_camera.or ctx.defaultUiCamera with
    | none =>
      rw [hcam] at h
      simp only [Option.some.injEq] at h
      subst h
      intro n hn
      cases hn
    | some c =>
      rw [hcam] at h
      simp only [extractResolved] at h
      intro n hn
      have hf := extractGlyphs_mem_fields ctx inp.text inp.global_transform _ _ c
        inp.text_layout.glyphs colorWHITE usizeMAX nodes h n hn
      refine ⟨?_, hf.2⟩
      intro c' hc'
      cases hc'
      exact hf.1

/-- Claim C8: every draw primitive an entity's extraction emits carries
`stack_index = (entity depth z) as u32` (truncation), so whenever the
truncated depth of one entity exceeds another's, each of its primitives
stacks strictly above each of the other's, independent of the order the
two entities were created or extracted in. -/
theorem stack_index_truncated_depth (ctx ctx2 : ExtractCtx) (inp inp2 : ExtractInput) :
    (∀ nodes, extractEntity ctx inp = some nodes →
      ∀ n ∈ nodes, n.stack_index = u32cast inp.global_transform.translation.z) ∧
    (∀ nodes nodes2, extractEntity ctx inp = some nodes →
      extractEntity ctx2 inp2 = some nodes2 →
      u32cast inp.global_transform.translation.z >
        u32cast inp2.global_transform.translation.z →
      ∀ n ∈ nodes, ∀ n2 ∈ nodes2, n.stack_index > n2.stack_index) := by
  constructor
  · intro nodes h n hn
    exact (extractEntity_node_fields ctx inp nodes h n hn).2
  · intro nodes nodes2 h h2 hgt n hn n2 hn2
    rw [(extractEntity_node_fields ctx inp nodes h n hn).2,
      (extractEntity_node_fields ctx2 inp2 nodes2 h2 n2 hn2).2]
    exact hgt

/-- Witness for `stack_index_truncated_depth`: two concrete one-glyph
entities at depths 100 and 1 under the same camera; every primitive of
the first stacks strictly above every primitive of the second. -/
theorem stack_index_truncated_depth_witness :
    ∀ n ∈ (extractEntity ⟨[(7, some 1)], some 7, [(0, ⟨⟨2, 2⟩, [⟨⟨0, 0⟩, ⟨1, 1⟩⟩]⟩)]⟩
        ⟨⟨Mat3.identity, ⟨0, 0, 100⟩⟩, ⟨[⟨"a", ⟨0, 12, 5⟩⟩], 0, 0⟩, true,
          ⟨[⟨⟨0, 0⟩, ⟨0, 0, 9⟩, 0⟩], ⟨0, 0⟩⟩, none⟩).getD [],
      ∀ n2 ∈ (extractEntity ⟨[(7, some 1)], some 7, [(0, ⟨⟨2, 2⟩, [⟨⟨0, 0⟩, ⟨1, 1⟩⟩]⟩)]⟩
          ⟨⟨Mat3.identity, ⟨0, 0, 1⟩⟩, ⟨[⟨"a", ⟨0, 12, 5⟩⟩], 0, 0⟩, true,
            ⟨[⟨⟨0, 0⟩, ⟨0, 0, 9⟩, 0⟩], ⟨0, 0⟩⟩, none⟩).getD [],
        n.stack_index > n2.stack_index := by
  intro n hn n2 hn2
  refine (stack_index_truncated_depth
      ⟨[(7, some 1)], some 7, [(0, ⟨⟨2, 2⟩, [⟨⟨0, 0⟩, ⟨1, 1⟩⟩]⟩)]⟩
      ⟨[(7, some 1)], some 7, [(0, ⟨⟨2, 2⟩, [⟨⟨0, 0⟩, ⟨1, 1⟩⟩]⟩)]⟩
      ⟨⟨Mat3.identity, ⟨0, 0, 100⟩⟩, ⟨[⟨"a", ⟨0, 12, 5⟩⟩], 0, 0⟩, true,
        ⟨[⟨⟨0, 0⟩, ⟨0, 0, 9⟩, 0⟩], ⟨0, 0⟩⟩, none⟩
      ⟨⟨Mat3.identity, ⟨0, 0, 1⟩⟩, ⟨[⟨"a", ⟨0, 12, 5⟩⟩], 0, 0⟩, true,
        ⟨[⟨⟨0, 0⟩, ⟨0, 0, 9⟩, 0⟩], ⟨0, 0⟩⟩, none⟩).2 _ _ rfl rfl ?_ n hn n2 hn2
  show u32cast (100 : ℚ) > u32cast (1 : ℚ)
  decide

/-- Claim C7: extraction emits primitives for an entity only when its
computed visibility is true and a camera resolves; the per-entity
`TargetCamera` override wins (whatever the default camera is — the
result does not depend on it), otherwise the default UI camera is used;
if neither resolves the entity contributes nothing; every emitted node
carries the resolved camera, whose scale factor drives the body
(`extractResolved` reads only that camera's scaling factor). -/
theorem extract_camera_resolution (ctx : ExtractCtx) (inp : ExtractInput) :
    (inp.view_visibility = false → extractEntity ctx inp = some []) ∧
    (inp.target_camera = none → ctx.defaultUiCamera = none →
      extractEntity ctx inp = some []) ∧
    (∀ o, inp.target_camera = some o → inp.view_visibility = true →
      ∀ d, extractEntity { ctx with defaultUiCamera := d } inp =
        extractResolved ctx inp o) ∧
    (inp.target_camera = none → ∀ c, ctx.defaultUiCamera = some c →
      inp.view_visibility = true →
      extractEntity ctx inp = extractResolved ctx inp c) ∧
    (∀ c nodes, inp.target_camera.or ctx.defaultUiCamera = some c →
      extractEntity ctx inp = some nodes → ∀ n ∈ nodes, n.camera_entity = c) := by
  refine ⟨?_, ?_, ?_, ?_, ?_⟩
  · intro hv
    unfold extractEntity
    rw [hv]
    rfl
  · intro htc hdc
    unfold extractEntity
    rw [htc, hdc]
    cases hv : inp.view_visibility <;> rfl
  · intro o ho hv d
    unfold extractEntity
    rw [hv, ho]
    simp only [Bool.not_true, Bool.false_eq_true, if_false, Option.or]
    unfold extractResolved
    exact extractGlyphs_eq_of_atlases { ctx with defaultUiCamera := d } ctx rfl inp.text
      inp.global_transform _ _ o inp.text_layout.glyphs colorWHITE usizeMAX
  · intro htc c hdc hv
    unfold extractEntity
    rw [hv, htc, hdc]
    rfl
  · intro c nodes hcam h n hn
    exact (extractEntity_node_fields ctx inp nodes h n hn).1 c hcam

/-- Witness for `extract_camera_resolution`: an entity with an explicit
camera override (camera 5, scale factor 2) is extracted against that
camera — the default camera (7, scale factor 1) is irrelevant — and its
emitted node carries camera 5. -/
theorem extract_camera_resolution_witness :
    extractEntity ⟨[(5, some 2), (7, some 1)], some 7, [(0, ⟨⟨2, 2⟩, [⟨⟨0, 0⟩, ⟨1, 1⟩⟩]⟩)]⟩
        ⟨⟨Mat3.identity, ⟨0, 0, 0⟩⟩, ⟨[⟨"a", ⟨0, 12, 5⟩⟩], 0, 0⟩, true,
          ⟨[⟨⟨0, 0⟩, ⟨0, 0, 9⟩, 0⟩], ⟨0, 0⟩⟩, some 5⟩ =
      extractResolved ⟨[(5, some 2), (7, some 1)], some 7, [(0, ⟨⟨2, 2⟩, [⟨⟨0, 0⟩, ⟨1, 1⟩⟩]⟩)]⟩
        ⟨⟨Mat3.identity, ⟨0, 0, 0⟩⟩, ⟨[⟨"a", ⟨0, 12, 5⟩⟩], 0, 0⟩, true,
          ⟨[⟨⟨0, 0⟩, ⟨0, 0, 9⟩, 0⟩], ⟨0, 0⟩⟩, some 5⟩ 5 := by
  have h := (extract_camera_resolution
      ⟨[(5, some 2), (7, some 1)], some 7, [(0, ⟨⟨2, 2⟩, [⟨⟨0, 0⟩, ⟨1, 1⟩⟩]⟩)]⟩
      ⟨⟨Mat3.identity, ⟨0, 0, 0⟩⟩, ⟨[⟨"a", ⟨0, 12, 5⟩⟩], 0, 0⟩, true,
        ⟨[⟨⟨0, 0⟩, ⟨0, 0, 9⟩, 0⟩], ⟨0, 0⟩⟩, some 5⟩).2.2.1 5 rfl rfl (some 7)
  exact h

/-- Claim C3 (code bug): lines 174–179 compute the base transform with
its translation snapped to the device-pixel grid, but the variable is
never read again — the emitted primitives' transforms are rebuilt on
lines 200–204 from the raw world transform with no rounding.  For an
entity whose world translation is (3/10, 0, 0) at scale factor 1, with
one origin glyph and zero logical size, the snapped translation is
(0, 0, 0), yet the one emitted primitive's translation is (3/10, 0, 0). -/
theorem extract_snap_translation_unused :
    (snappedBaseTransform ⟨Mat3.identity, ⟨3/10, 0, 0⟩⟩ ⟨0, 0⟩ 1).translation =
      ⟨0, 0, 0⟩ ∧
    (extractEntity ⟨[(7, some 1)], some 7, [(0, ⟨⟨2, 2⟩, [⟨⟨0, 0⟩, ⟨1, 1⟩⟩]⟩)]⟩
        ⟨⟨Mat3.identity, ⟨3/10, 0, 0⟩⟩, ⟨[⟨"a", ⟨0, 12, 5⟩⟩], 0, 0⟩, true,
          ⟨[⟨⟨0, 0⟩, ⟨0, 0, 9⟩, 0⟩], ⟨0, 0⟩⟩, none⟩).map
      (List.map fun n => n.transform.translation) = some [⟨3/10, 0, 0⟩] ∧
    ((⟨3/10, 0, 0⟩ : Vec3) ≠ ⟨0, 0, 0⟩) := by
  refine ⟨?_, ?_, ?_⟩
  · simp only [snappedBaseTransform, Affine3.mul, Affine3.fromTranslation,
      Mat3.mul, Mat3.mulVec, Mat3.identity, Vec3.add, Vec3.smul, Vec3.roundv,
      Vec2.extend, f32round, ratFloor]
    norm_num
  · simp only [extractEntity, extractResolved, extractGlyphs, cameraScaleFactor,
      snappedBaseTransform, extractedTransform, usizeMAX, colorWHITE,
      Affine3.mul, Affine3.fromTranslation, Affine3.fromScale,
      Mat3.mul, Mat3.mulVec, Mat3.identity, Mat3.diagonal,
      Vec3.add, Vec3.smul, Vec3.roundv, Vec2.extend, f32round, ratFloor,
      List.lookup, Option.or, Option.map, List.map]
    norm_num
  · intro h
    have hx := congrArg Vec3.x h
    norm_num at hx

/-- The glyph loop aborts with an indexing failure iff some glyph
violates the indexing precondition — under the loop invariant that the
threaded `current_section` is the initial `usize::MAX` sentinel or in
range, and the (Rust-guaranteed) side condition that no cached section
index equals `usize::MAX` itself. -/
theorem extractGlyphs_none_iff (ctx : ExtractCtx) (text : Text) (gt : Affine3)
    (ao : Vec2) (sf : ℚ) (ce : ℕ) :
    ∀ (gs : List PositionedGlyph) (col : ColorV) (cs : ℕ),
      (cs = usizeMAX ∨ cs < text.sections.length) →
      (∀ g ∈ gs, g.section_index < usizeMAX) →
      (extractGlyphs ctx text gt ao sf ce col cs gs = none ↔
        ¬ ∀ g ∈ gs, validGlyph text ctx.atlases g = true) := by
  intro gs
  induction gs with
  | nil =>
    intro col cs hcs hmax
    simp [extractGlyphs]
  | cons g rest ih =>
    intro col cs hcs hmax
    have hgmax : g.section_index < usizeMAX := hmax g (List.mem_cons_self g rest)
    have hrestmax : ∀ g' ∈ rest, g'.section_index < usizeMAX :=
      fun g' hg' => hmax g' (List.mem_cons_of_mem g hg')
    simp only [extractGlyphs]
    by_cases hsec : g.section_index ≠ cs
    · rw [if_pos hsec]
      cases hlook : text.sections[g.section_index]? with
      | none =>
        have hlen : text.sections.length ≤ g.section_index :=
          List.getElem?_eq_none_iff.mp hlook
        simp [validGlyph, List.forall_mem_cons, Nat.not_lt.mpr hlen]
      | some sec =>
        have hlt : g.section_index < text.sections.length :=
          (List.getElem?_eq_some.mp hlook).1
        simp only [hlook]
        cases hatlas : ctx.atlases.lookup g.atlas_info.texture_atlas with
        | none =>
          simp [validGlyph, List.forall_mem_cons, hatlas, hlt]
        | some atlas =>
          simp only [hatlas]
          cases hrect : atlas.textures[g.atlas_info.glyph_index]? with
          | none =>
            have hrlen : atlas.textures.length ≤ g.atlas_info.glyph_index :=
              List.getElem?_eq_none_iff.mp hrect
            simp [validGlyph, List.forall_mem_cons, hatlas, hlt, Nat.not_lt.mpr hrlen]
          | some rect0 =>
            have hrlt : g.atlas_info.glyph_index < atlas.textures.length :=
              (List.getElem?_eq_some.mp hrect).1
            simp only [hrect]
            have hih := ih sec.style.color g.section_index (Or.inr hlt) hrestmax
            cases hrec2 : extractGlyphs ctx text gt ao sf ce sec.style.color
                g.section_index rest with
            | none =>
              have hnall := hih.mp hrec2
              simp only [hrec2, List.forall_mem_cons]
              constructor
              · intro _ hconj
                exact hnall hconj.2
              · intro _
                trivial
            | some ns =>
              have hall : ∀ g' ∈ rest, validGlyph text ctx.atlases g' = true := by
                by_contra hn
                rw [hih.mpr hn] at hrec2
                cases hrec2
              simp only [hrec2, List.forall_mem_cons]
              constructor
              · intro hcontra
                cases hcontra
              · intro hneg
                exfalso
                apply hneg
                refine ⟨?_, hall⟩
                simp [validGlyph, hatlas, hlt, hrlt]
    · rw [if_neg hsec]
      have hcseq : g.section_index = cs := not_not.mp hsec
      have hlt : g.section_index < text.sections.length := by
        rcases hcs with hmaxcs | hltcs
        · exact absurd (hcseq.trans hmaxcs) (Nat.ne_of_lt hgmax)
        · exact hcseq ▸ hltcs
      cases hatlas : ctx.atlases.lookup g.atlas_info.texture_atlas with
      | none =>
        simp [validGlyph, List.forall_mem_cons, hatlas, hlt]
      | some atlas =>
        simp only [hatlas]
        cases hrect : atlas.textures[g.atlas_info.glyph_index]? with
        | none =>
          have hrlen : atlas.textures.length ≤ g.atlas_info.glyph_index :=
            List.getElem?_eq_none_iff.mp hrect
          simp [validGlyph, List.forall_mem_cons, hatlas, hlt, Nat.not_lt.mpr hrlen]
        | some rect0 =>
          have hrlt : g.atlas_info.glyph_index < atlas.textures.length :=
            (List.getElem?_eq_some.mp hrect).1
          simp only [hrect]
          have hih := ih col cs hcs hrestmax
          cases hrec2 : extractGlyphs ctx text gt ao sf ce col cs rest with
          | none =>
            have hnall := hih.mp hrec2
            simp only [hrec2, List.forall_mem_cons]
            constructor
            · intro _ hconj
              exact hnall hconj.2
            · intro _
              trivial
          | some ns =>
            have hall : ∀ g' ∈ rest, validGlyph text ctx.atlases g' = true := by
              by_contra hn
              rw [hih.mpr hn] at hrec2
              cases hrec2
            simp only [hrec2, List.forall_mem_cons]
            constructor
            · intro hcontra
              cases hcontra
            · intro hneg
              exfalso
              apply hneg
              refine ⟨?_, hall⟩
              simp [validGlyph, hatlas, hlt, hrlt]

/-- Claim C9: extraction is partial.  For a visible entity with a
resolved camera, the per-entity pass aborts (the unchecked
`text.sections[i]`, `texture_atlases.get(..).unwrap()` and
`atlas.textures[i]` indexing) iff some cached glyph has a section index
out of range for the *current* text, references a missing texture
atlas, or an out-of-range glyph rect — e.g. a stale cached layout during
the font-loading retry window after the text lost sections.  The side
condition that no cached section index equals the `usize::MAX` sentinel
is automatic for indices into a real `Vec`. -/
theorem extract_stale_glyph_abort_iff (ctx : ExtractCtx) (inp : ExtractInput) (c : ℕ)
    (hvis : inp.view_visibility = true)
    (hcam : inp.target_camera.or ctx.defaultUiCamera = some c)
    (hmax : ∀ g ∈ inp.text_layout.glyphs, g.section_index < usizeMAX) :
    (extractEntity ctx inp = none ↔
      ¬ ∀ g ∈ inp.text_layout.glyphs, validGlyph inp.text ctx.atlases g = true) := by
  unfold extractEntity
  rw [hvis]
  simp only [Bool.not_true, Bool.false_eq_true, if_false]
  rw [hcam]
  exact extractGlyphs_none_iff ctx inp.text inp.global_transform _ _ c
    inp.text_layout.glyphs colorWHITE usizeMAX (Or.inl rfl) hmax

/-- Witness for `extract_stale_glyph_abort_iff`: a visible entity whose
text now has zero sections while its cached layout still holds a glyph
with section index 0 makes the extraction pass abort. -/
theorem extract_stale_glyph_abort_iff_witness :
    extractEntity ⟨[(7, some 1)], some 7, [(0, ⟨⟨2, 2⟩, [⟨⟨0, 0⟩, ⟨1, 1⟩⟩]⟩)]⟩
        ⟨⟨Mat3.identity, ⟨0, 0, 0⟩⟩, ⟨[], 0, 0⟩, true,
          ⟨[⟨⟨0, 0⟩, ⟨0, 0, 9⟩, 0⟩], ⟨0, 0⟩⟩, none⟩ = none := by
  refine (extract_stale_glyph_abort_iff
      ⟨[(7, some 1)], some 7, [(0, ⟨⟨2, 2⟩, [⟨⟨0, 0⟩, ⟨1, 1⟩⟩]⟩)]⟩
      ⟨⟨Mat3.identity, ⟨0, 0, 0⟩⟩, ⟨[], 0, 0⟩, true,
        ⟨[⟨⟨0, 0⟩, ⟨0, 0, 9⟩, 0⟩], ⟨0, 0⟩⟩, none⟩ 7 rfl rfl ?_).mpr ?_
  · decide
  · decide

/-- Witness for `layout_trigger_iff`: with a pending scale-factor
change, a concrete entity with unchanged text and an empty retry queue
is still re-laid-out (not skipped). -/
theorem layout_trigger_iff_witness :
    (runLayoutEntity (fun _ _ _ _ _ => .ok ⟨[], ⟨1, 1⟩⟩) 1 true 0
        ⟨⟨[], 0, 0⟩, false, none, ⟨[], ⟨0, 0⟩⟩⟩ ∅).2.2 ≠ .skipped :=
  (layout_trigger_iff (fun _ _ _ _ _ => .ok ⟨[], ⟨1, 1⟩⟩) 1 true 0
      ⟨⟨[], 0, 0⟩, false, none, ⟨[], ⟨0, 0⟩⟩⟩ ∅).2.2 rfl

/-- Witness for `retry_queue_membership_after_attempt`, instantiated at
a queued entity whose attempt succeeds under a scale-factor change. -/
theorem retry_queue_membership_after_attempt_witness :
    0 ∈ (runLayoutEntity (fun _ _ _ _ _ => .ok ⟨[], ⟨1, 1⟩⟩) 1 true 0
        ⟨⟨[], 0, 0⟩, false, none, ⟨[], ⟨0, 0⟩⟩⟩ {0}).2.1 ↔
      (runLayoutEntity (fun _ _ _ _ _ => .ok ⟨[], ⟨1, 1⟩⟩) 1 true 0
        ⟨⟨[], 0, 0⟩, false, none, ⟨[], ⟨0, 0⟩⟩⟩ {0}).2.2 = .deferred ∨
        (0 ∈ ({0} : Finset ℕ) ∧
          (true || (⟨⟨[], 0, 0⟩, false, none, ⟨[], ⟨0, 0⟩⟩⟩ : EntityRecord).text_changed)
            = true) :=
  retry_queue_membership_after_attempt (fun _ _ _ _ _ => .ok ⟨[], ⟨1, 1⟩⟩) 1 true 0
    ⟨⟨[], 0, 0⟩, false, none, ⟨[], ⟨0, 0⟩⟩⟩ {0}
